import Mathlib

/-!
Shallow embedding of the sensorLogger ingestion pipeline.

The definitions below are translated from the repository source:
  * `src/config/models.py` — `Sensor.sanitize_value`, `_as_str_key`, `_parse_bool`;
  * `src/msg_sender.py`    — `MessageSender._should_send`, `MessageSender.send`;
  * `src/mqtt_logger.py`   — `DatabaseManager.insert`, `MQTTLogger.on_message`,
    `MQTTLogger._handle_exception`, `MQTTLogger.check_missing_data`,
    `MQTTLogger.check_bad_values`, `MQTTLogger.check_db_size`.

Dynamically typed Python values are modelled by the inductive type `PyVal`.
Python floats are modelled by rationals; wall-clock instants (`datetime.now()`,
`time.time()`) are modelled by a rational number of seconds that each operation
receives explicitly.  Python dictionaries are modelled by association lists in
insertion order (lookup returns the first matching key, which agrees with
Python dictionaries because their keys are unique).
-/

namespace SensorLogger

/-- Model of a decoded Python / JSON value as it flows through the logger. -/
inductive PyVal where
  | none
  | bool (b : Bool)
  | int (n : Int)
  | float (q : ℚ)
  | str (s : String)
  | list (xs : List PyVal)
  | dict (entries : List (String × PyVal))

mutual

/-- Structural boolean equality on `PyVal` (the deriving handler does not
support this nested inductive). -/
def PyVal.beq : PyVal → PyVal → Bool
  | .none, .none => true
  | .bool a, .bool b => a == b
  | .int a, .int b => a == b
  | .float a, .float b => a == b
  | .str a, .str b => a == b
  | .list a, .list b => PyVal.beqList a b
  | .dict a, .dict b => PyVal.beqDict a b
  | _, _ => false

/-- Elementwise `PyVal.beq` on lists. -/
def PyVal.beqList : List PyVal → List PyVal → Bool
  | [], [] => true
  | a :: as, b :: bs => PyVal.beq a b && PyVal.beqList as bs
  | _, _ => false

/-- Entrywise `PyVal.beq` on dict entry lists. -/
def PyVal.beqDict : List (String × PyVal) → List (String × PyVal) → Bool
  | [], [] => true
  | (k1, v1) :: as, (k2, v2) :: bs =>
      k1 == k2 && PyVal.beq v1 v2 && PyVal.beqDict as bs
  | _, _ => false

end

mutual

theorem PyVal.eq_of_beq : ∀ {a b : PyVal}, PyVal.beq a b = true → a = b
  | .none, .none, _ => rfl
  | .bool a, .bool b, h => by simpa [PyVal.beq] using h
  | .int a, .int b, h => by simpa [PyVal.beq] using h
  | .float a, .float b, h => by simpa [PyVal.beq] using h
  | .str a, .str b, h => by simpa [PyVal.beq] using h
  | .list a, .list b, h => congrArg PyVal.list (PyVal.eqList_of_beq h)
  | .dict a, .dict b, h => congrArg PyVal.dict (PyVal.eqDict_of_beq h)

theorem PyVal.eqList_of_beq : ∀ {as bs : List PyVal}, PyVal.beqList as bs = true → as = bs
  | [], [], _ => rfl
  | a :: as, b :: bs, h => by
      have h1 : PyVal.beq a b = true ∧ PyVal.beqList as bs = true := by
        simpa [PyVal.beqList, Bool.and_eq_true] using h
      rw [PyVal.eq_of_beq h1.1, PyVal.eqList_of_beq h1.2]

theorem PyVal.eqDict_of_beq :
    ∀ {as bs : List (String × PyVal)}, PyVal.beqDict as bs = true → as = bs
  | [], [], _ => rfl
  | (k1, v1) :: as, (k2, v2) :: bs, h => by
      have h1 : (k1 == k2) = true ∧ PyVal.beq v1 v2 = true ∧ PyVal.beqDict as bs = true := by
        simpa [PyVal.beqDict, Bool.and_eq_true, and_assoc] using h
      have hk : k1 = k2 := by simpa using h1.1
      rw [hk, PyVal.eq_of_beq h1.2.1, PyVal.eqDict_of_beq h1.2.2]

end

mutual

theorem PyVal.beq_refl : ∀ a : PyVal, PyVal.beq a a = true
  | .none => rfl
  | .bool a => by simp [PyVal.beq]
  | .int a => by simp [PyVal.beq]
  | .float a => by simp [PyVal.beq]
  | .str a => by simp [PyVal.beq]
  | .list a => PyVal.beqList_refl a
  | .dict a => PyVal.beqDict_refl a

theorem PyVal.beqList_refl : ∀ as : List PyVal, PyVal.beqList as as = true
  | [] => rfl
  | a :: as => by
      simp only [PyVal.beqList, Bool.and_eq_true]
      exact ⟨PyVal.beq_refl a, PyVal.beqList_refl as⟩

theorem PyVal.beqDict_refl : ∀ as : List (String × PyVal), PyVal.beqDict as as = true
  | [] => rfl
  | (k, v) :: as => by
      simp only [PyVal.beqDict, Bool.and_eq_true]
      exact ⟨⟨by simp, PyVal.beq_refl v⟩, PyVal.beqDict_refl as⟩

end

instance : DecidableEq PyVal := fun a b =>
  if h : PyVal.beq a b = true then isTrue (PyVal.eq_of_beq h)
  else isFalse fun he => h (he ▸ PyVal.beq_refl a)

/-- Whitespace trimming on a character list: model of Python `str.strip()`
(and of the `.strip()` calls in `_as_str_key` and `_parse_bool`). -/
def trimChars (l : List Char) : List Char :=
  ((l.dropWhile Char.isWhitespace).reverse.dropWhile Char.isWhitespace).reverse

/-- Model of Python `str.strip()` on strings. -/
def strStrip (s : String) : String := ⟨trimChars s.data⟩

/-- Model of Python `str.lower()`. -/
def strLower (s : String) : String := ⟨s.data.map Char.toLower⟩

/-- Split of a character list at every occurrence of a separator character:
model of Python `str.split(sep)` for a one-character separator (and of the
topic split on `"/"` in `_sensor_id_from_topic`). -/
def splitOnChar (sep : Char) : List Char → List (List Char)
  | [] => [[]]
  | c :: rest =>
      match splitOnChar sep rest with
      | [] => [[c]]
      | h :: t => if c = sep then [] :: h :: t else (c :: h) :: t

/-- Whether the first list is a leading segment of the second. -/
def startsWithChars : List Char → List Char → Bool
  | [], _ => true
  | _ :: _, [] => false
  | a :: as, b :: bs => a == b && startsWithChars as bs

/-- Whether the needle occurs contiguously inside the haystack: model of the
Python `in` test on strings. -/
def containsChars (needle : List Char) : List Char → Bool
  | [] => startsWithChars needle []
  | c :: rest => startsWithChars needle (c :: rest) || containsChars needle rest

/-- Python truthiness test (`if not x`): `None`, `False`, `0`, `0.0`, `""`,
`[]` and the empty dict are falsy, everything else is truthy. -/
def pyFalsy : PyVal → Bool
  | .none => true
  | .bool b => !b
  | .int n => n == 0
  | .float q => q == 0
  | .str s => s == ""
  | .list xs => xs.isEmpty
  | .dict es => es.isEmpty

mutual

/-- Model of Python `repr` on the values above.  String reprs are quoted,
containers list their elements.  Floats with an integral value print with a
trailing `.0`; the exact digit string of non-integral floats is irrelevant to
every claim (no claim compares the string form of a non-integral float). -/
def pyRepr : PyVal → String
  | .none => "None"
  | .bool b => if b then "True" else "False"
  | .int n => toString n
  | .float q => if q.den = 1 then toString q.num ++ ".0" else toString q
  | .str s => "\x27" ++ s ++ "\x27"
  | .list xs => "[" ++ pyReprList xs ++ "]"
  | .dict es => "\x7b" ++ pyReprDict es ++ "\x7d"

/-- Comma-joined reprs of the elements of a Python list. -/
def pyReprList : List PyVal → String
  | [] => ""
  | [x] => pyRepr x
  | x :: y :: xs => pyRepr x ++ ", " ++ pyReprList (y :: xs)

/-- Comma-joined `key: value` reprs of the entries of a Python dict. -/
def pyReprDict : List (String × PyVal) → String
  | [] => ""
  | [(k, v)] => "\x27" ++ k ++ "\x27: " ++ pyRepr v
  | (k, v) :: e :: es => "\x27" ++ k ++ "\x27: " ++ pyRepr v ++ ", " ++ pyReprDict (e :: es)

end

/-- Model of Python `str` applied to a decoded value: identical to `repr`
except on strings, which print unquoted. -/
def pyStr : PyVal → String
  | .str s => s
  | v => pyRepr v

/-- Embedding of `_as_str_key` (`src/config/models.py`): `None` maps to the
literal string `"null"`, every other value to its stripped string form. -/
def asStrKey : PyVal → String
  | .none => "null"
  | v => strStrip (pyStr v)

/-- Embedding of `_parse_bool` (`src/config/models.py`).  Returns `some 0`,
`some 1`, or `Option.none` exactly as the source returns `0`, `1`, or `None`. -/
def parseBool : PyVal → Option Int
  | .none => Option.none
  | .bool b => some (if b then 1 else 0)
  | .int n => if n = 0 then some 0 else if n = 1 then some 1 else Option.none
  | .float q => if q = 0 then some 0 else if q = 1 then some 1 else Option.none
  | .str s =>
      let t := strLower (strStrip s)
      if t ∈ ["true", "1", "yes", "y", "on", "ok"] then some 1
      else if t ∈ ["false", "0", "no", "n", "off", "low"] then some 0
      else Option.none
  | .list _ => Option.none
  | .dict _ => Option.none

/-- Numeric value of a list of decimal digit characters. -/
def digitsVal (l : List Char) : ℕ :=
  l.foldl (fun a c => a * 10 + (c.toNat - 48)) 0

/-- Model of Python `float(s)` on a string: strips whitespace, then accepts an
optional sign followed by a decimal literal (`d+`, `d+.d*`, `.d+`).  The
source relies on `float` only to distinguish parse success from failure;
exponent, `inf` and `nan` forms never occur in the repository's data. -/
def parseFloat? (s : String) : Option ℚ :=
  let l := trimChars s.data
  let (sign, body) : ℚ × List Char :=
    match l with
    | '-' :: rest => (-1, rest)
    | '+' :: rest => (1, rest)
    | _ => (1, l)
  match splitOnChar '.' body with
  | [a] =>
      if a ≠ [] ∧ a.all Char.isDigit then some (sign * digitsVal a) else Option.none
  | [a, b] =>
      if (a ≠ [] ∨ b ≠ []) ∧ a.all Char.isDigit ∧ b.all Char.isDigit then
        some (sign * ((digitsVal a : ℚ) + digitsVal b / 10 ^ b.length))
      else Option.none
  | _ => Option.none

/-- Model of Python `float(v)`: `Option.none` models the `TypeError` /
`ValueError` that the source catches with `except Exception`. -/
def pyFloat : PyVal → Option ℚ
  | .none => Option.none
  | .bool b => some (if b then 1 else 0)
  | .int n => some n
  | .float q => some q
  | .str s => parseFloat? s
  | .list _ => Option.none
  | .dict _ => Option.none

/-- Truncation toward zero, the behaviour of Python `int(float)`. -/
def ratTrunc (q : ℚ) : Int :=
  if 0 ≤ q then ⌊q⌋ else -⌊-q⌋

/-- Round-half-to-even of a rational to an integer (Python `round` to zero
digits). -/
def roundHalfEven (q : ℚ) : Int :=
  let f := ⌊q⌋
  if q - f < 1 / 2 then f
  else if 1 / 2 < q - f then f + 1
  else if f % 2 = 0 then f else f + 1

/-- Model of Python `round(val, n)` on the rational model of floats. -/
def roundTo (q : ℚ) (n : Int) : ℚ :=
  (roundHalfEven (q * (10 : ℚ) ^ n) : ℚ) / (10 : ℚ) ^ n

/-- Model of the `Sensor` dataclass fields used by `sanitize_value`
(`src/config/models.py`).  `invalidMap` keeps the JSON object as an
association list with unique keys. -/
structure Sensor where
  key : String
  fieldType : String
  roundDigits : Option Int
  invalidMap : List (String × PyVal)
  deriving DecidableEq

/-- Steps 2–6 of `Sensor.sanitize_value`: everything after the invalid-map
substitution (None short-circuit, first-of-list extraction, type coercion,
rounding, string strip).  Factored out so that the effect of a map hit can be
stated: `sanitizeValue` is this coercion applied to the substituted value. -/
def sanitizeCoerce (s : Sensor) (raw0 : PyVal) : PyVal :=
  match raw0 with
  | PyVal.none => PyVal.none
  | raw0 =>
    let t := strLower (if s.fieldType = "" then "string" else s.fieldType)
    let raw := match raw0 with
      | .list (x :: _) => x
      | v => v
    if t = "float" ∨ t = "double" ∨ t = "number" then
      match pyFloat raw with
      | Option.none => PyVal.none
      | some v =>
          match s.roundDigits with
          | Option.none => PyVal.float v
          | some r => PyVal.float (roundTo v r)
    else if t = "int" ∨ t = "integer" then
      match pyFloat raw with
      | Option.none => PyVal.none
      | some v => PyVal.int (ratTrunc v)
    else if t = "bool" ∨ t = "boolean" then
      match parseBool raw with
      | Option.none => PyVal.none
      | some b => PyVal.int b
    else
      let str := strStrip (pyStr raw)
      if str = "" then PyVal.none else PyVal.str str

/-- Embedding of `Sensor.sanitize_value` (`src/config/models.py`, lines
104–154).  Note that, as in the source, it returns a single sanitized value,
not a pair. -/
def sanitizeValue (s : Sensor) (raw : PyVal) : PyVal :=
  sanitizeCoerce s
    (match s.invalidMap.lookup (asStrKey raw) with
     | some v => v
     | Option.none => raw)

/-- Model of Python unpacking `a, b = v` into two targets: succeeds exactly
when `v` is an iterable with precisely two elements (a two-element list or
tuple, a two-character string, or a two-key dict, which iterates its keys).
`Option.none` models the `TypeError` / `ValueError` that unpacking any other
value raises. -/
def unpack2 : PyVal → Option (PyVal × PyVal)
  | .list [a, b] => some (a, b)
  | .str s =>
      match s.data with
      | [a, b] => some (.str ⟨[a]⟩, .str ⟨[b]⟩)
      | _ => Option.none
  | .dict [(k1, _), (k2, _)] => some (.str k1, .str k2)
  | _ => Option.none

/-- Association-list update with the lookup behaviour of a Python dict
assignment `d[k] = v`: the new binding shadows and removes any previous
binding of `k`, all other keys keep their values. -/
def upsert {α : Type} (k : String) (v : α) (l : List (String × α)) : List (String × α) :=
  (k, v) :: l.filter fun p => !(p.1 == k)

/-- Embedding of the `EnabledChannels` dataclass (`src/config/models.py`). -/
structure EnabledChannels where
  ntfy : Bool
  mail : Bool
  stdout : Bool
  logfile : Bool
  deriving DecidableEq, Repr

/-- Mutable state of `MessageSender` (`src/msg_sender.py`): the
`last_sent` dict mapping trigger keys to the time of the last dispatch,
modelled in seconds. -/
structure SenderState where
  lastSent : List (String × ℚ)
  deriving DecidableEq, Repr

/-- Embedding of `MessageSender._should_send` (`src/msg_sender.py`, lines
76–91): true when the key was never sent, or when at least
`max_repeat_hours` hours have elapsed since the last send. -/
def shouldSend (st : SenderState) (maxRepeatHours : ℚ) (now : ℚ) (key : String) : Bool :=
  match st.lastSent.lookup key with
  | Option.none => true
  | some last => decide (maxRepeatHours * 3600 ≤ now - last)

/-- Names of the channels a non-throttled `send` call invokes, in source
order (stdout, logfile — only when a file logger exists —, ntfy, mail).
Each channel method of the source catches its own exceptions internally, so
an individual delivery failure never propagates out of `send`. -/
def channelsInvoked (e : EnabledChannels) (hasLogger : Bool) : List String :=
  (if e.stdout then ["stdout"] else []) ++
  (if e.logfile && hasLogger then ["logfile"] else []) ++
  (if e.ntfy then ["ntfy"] else []) ++
  (if e.mail then ["mail"] else [])

/-- Embedding of `MessageSender.send` (`src/msg_sender.py`, lines 93–136).
Returns the `sent` boolean, the updated sender state and the list of
channels invoked.  A throttled call returns `false` and leaves the state
untouched; otherwise every enabled channel is invoked and `now` is recorded
against the trigger key. -/
def send (st : SenderState) (maxRepeatHours : ℚ) (now : ℚ) (key : String)
    (e : EnabledChannels) (hasLogger : Bool) : Bool × SenderState × List String :=
  if shouldSend st maxRepeatHours now key then
    (true, ⟨upsert key now st.lastSent⟩, channelsInvoked e hasLogger)
  else
    (false, st, [])

/-- Outcome of one attempt to execute the insert statement, the environment
oracle for `DatabaseManager.insert`: success, an
`sqlite3.OperationalError` with the given message, or any other
`sqlite3.Error` with the given message. -/
inductive AttemptResult where
  | ok
  | opError (msg : String)
  | dbError (msg : String)
  deriving DecidableEq, Repr

/-- Result of `DatabaseManager.insert`: normal return, a `DatabaseError`
raised immediately (carrying the underlying message), or the `DatabaseError`
raised after the retry loop is exhausted. -/
inductive InsertOutcome where
  | success
  | failImmediate (msg : String)
  | failExhausted
  deriving DecidableEq, Repr

/-- Test `"locked" in str(e).lower()` from `DatabaseManager.insert`. -/
def containsLocked (m : String) : Bool :=
  containsChars "locked".data (strLower m).data

/-- Retry loop of `DatabaseManager.insert` (`src/mqtt_logger.py`, lines
145–172), starting at attempt index `i` with `fuel` iterations left.
Returns the outcome together with the number of attempts performed.  The
oracle `attempts` gives the result of the `k`-th execution of the SQL
statement. -/
def insertFrom (attempts : ℕ → AttemptResult) (i : ℕ) : ℕ → InsertOutcome × ℕ
  | 0 => (.failExhausted, i)
  | fuel + 1 =>
      match attempts i with
      | .ok => (.success, i + 1)
      | .opError m =>
          if containsLocked m then insertFrom attempts (i + 1) fuel
          else (.failImmediate m, i + 1)
      | .dbError m => (.failImmediate m, i + 1)

/-- Embedding of `DatabaseManager.insert`: `for _ in range(5)` over the
attempt oracle. -/
def insert (attempts : ℕ → AttemptResult) : InsertOutcome × ℕ :=
  insertFrom attempts 0 5

/-- Configuration of one table (`TableConfig` in `src/config/models.py`):
the fields `MQTTLogger` reads, with `sensors` kept in declaration order. -/
structure TableCfg where
  key : String
  name : String
  sensorId : String
  tsName : String
  sensors : List (String × Sensor)
  deriving DecidableEq

/-- Immutable environment of `MQTTLogger`: the configured and the active
tables, the sender's repeat interval, the per-trigger channel sets read from
`msg_config`, and whether a file logger exists. -/
structure LoggerEnv where
  allTables : List TableCfg
  activeTables : List TableCfg
  maxRepeatHours : ℚ
  infoE : EnabledChannels
  unknownSensorE : EnabledChannels
  jsonDecodeE : EnabledChannels
  nonDictE : EnabledChannels
  missingTsE : EnabledChannels
  missingDataE : EnabledChannels
  badValuesE : EnabledChannels
  dbSizeE : EnabledChannels
  hasLogger : Bool

/-- Per-sensor receive statistics (`rx_stats` entry in `MQTTLogger`). -/
structure RxStat where
  countTotal : ℕ
  firstTs : ℚ
  lastTs : ℚ
  lastInfoCount : ℕ
  lastInfoTs : ℚ
  deriving DecidableEq, Repr

/-- Mutable state of `MQTTLogger` touched by `on_message` and the periodic
checks. -/
structure LoggerState where
  sender : SenderState
  lastMessageTime : List (String × ℚ)
  rxStats : List (String × RxStat)
  badValueEvents : List (String × ℕ)
  exceptionCounts : List (String × ℕ)

/-- Observable actions of one `MQTTLogger` operation: a notification attempt
through `MessageSender.send` with its trigger key and resulting `sent`
boolean, or a database insert of a record into a table. -/
inductive Effect where
  | notified (key : String) (sent : Bool)
  | inserted (table : String) (record : List (String × PyVal))
  deriving DecidableEq

/-- Embedding of `MQTTLogger._sensor_id_from_topic` (`src/mqtt_logger.py`,
lines 230–234). -/
def sensorIdFromTopic (topic : String) : Option String :=
  let parts := (splitOnChar '/' topic.data).map fun l => String.mk l
  if 3 ≤ parts.length ∧ parts.headD "" = "mobilealerts" then some (parts.getD 1 "")
  else Option.none

/-- Embedding of `MQTTLogger._get_table_for_sensor` (`src/mqtt_logger.py`,
lines 236–245): first consult the full configuration, then return the first
active table carrying the sensor id. -/
def getTableForSensor (env : LoggerEnv) (sid : String) : Option TableCfg :=
  match env.allTables.find? (fun t => t.sensorId == sid) with
  | Option.none => Option.none
  | some _ => env.activeTables.find? (fun t => t.sensorId == sid)

/-- Embedding of `MQTTLogger._handle_exception` (`src/mqtt_logger.py`, lines
249–287): increment the per-sensor exception count, send a notification
under the key `EXCEPTION_<type name>` through the info channels, and reset
the count to zero when the notification fired. -/
def handleException (env : LoggerEnv) (st : LoggerState) (sid : String)
    (excName : String) (now : ℚ) : LoggerState × List Effect :=
  let cnt := ((st.exceptionCounts.lookup sid).getD 0) + 1
  let ec1 := upsert sid cnt st.exceptionCounts
  let key := "EXCEPTION_" ++ excName
  let (sent, sst, _) := send st.sender env.maxRepeatHours now key env.infoE env.hasLogger
  let ec2 := if sent then upsert sid 0 ec1 else ec1
  ({ st with sender := sst, exceptionCounts := ec2 }, [.notified key sent])

/-- The sanitize loop of `on_message` (`src/mqtt_logger.py`, lines 377–383):
for every configured field, fetch the raw value from the payload (`None`
when absent), sanitize it, and unpack the result into `(value, is_good)`.
Returns the record entries and the number of bad hits, or `Option.none` when
an unpacking step raises — which, since `sanitize_value` returns a single
value, models the `TypeError` path of the source. -/
def sanitizeLoop (sensors : List (String × Sensor)) (payload : List (String × PyVal)) :
    Option (List (String × PyVal) × ℕ) :=
  match sensors with
  | [] => some ([], 0)
  | (skey, sen) :: rest =>
      let raw := (payload.lookup skey).getD PyVal.none
      match unpack2 (sanitizeValue sen raw) with
      | Option.none => Option.none
      | some (v, g) =>
          match sanitizeLoop rest payload with
          | Option.none => Option.none
          | some (recs, bh) => some ((skey, v) :: recs, (if pyFalsy g then 1 else 0) + bh)

/-- Update of `rx_stats` for an accepted message (`src/mqtt_logger.py`,
lines 401–412). -/
def updateRx (sid : String) (now : ℚ) (l : List (String × RxStat)) : List (String × RxStat) :=
  match l.lookup sid with
  | Option.none => upsert sid ⟨1, now, now, 0, 0⟩ l
  | some st => upsert sid { st with countTotal := st.countTotal + 1, lastTs := now } l

/-- Embedding of `MQTTLogger.on_message` (`src/mqtt_logger.py`, lines
308–422).  `payloadOpt` is the decoded JSON payload, `Option.none` standing
for a `json.JSONDecodeError`.  The database insert is recorded as an effect
(the repository's `DatabaseManager` failure modes are analysed separately
through `insert`).  Returns the updated state and the effects in order. -/
def onMessage (env : LoggerEnv) (st : LoggerState) (topic : String)
    (payloadOpt : Option PyVal) (now : ℚ) : LoggerState × List Effect :=
  let unknownBranch : LoggerState × List Effect :=
    let (sent, sst, _) :=
      send st.sender env.maxRepeatHours now "UNKNOWN_SENSOR_ERROR" env.unknownSensorE env.hasLogger
    ({ st with sender := sst }, [.notified "UNKNOWN_SENSOR_ERROR" sent])
  match sensorIdFromTopic topic with
  | Option.none => unknownBranch
  | some sid =>
    if sid = "" then unknownBranch
    else
      match getTableForSensor env sid with
      | Option.none => unknownBranch
      | some table =>
        match payloadOpt with
        | Option.none =>
            let (sent, sst, _) :=
              send st.sender env.maxRepeatHours now "JSON_DECODE_ERROR" env.jsonDecodeE env.hasLogger
            ({ st with sender := sst }, [.notified "JSON_DECODE_ERROR" sent])
        | some payload =>
          match payload with
          | PyVal.dict entries =>
              let utms := (entries.lookup table.tsName).getD PyVal.none
              if pyFalsy utms then
                let (sent, sst, _) :=
                  send st.sender env.maxRepeatHours now "MISSING_TIMESTAMP" env.missingTsE env.hasLogger
                ({ st with sender := sst }, [.notified "MISSING_TIMESTAMP" sent])
              else
                match sanitizeLoop table.sensors entries with
                | Option.none =>
                    handleException env st sid "InternalLoggerError" now
                | some (recs, badHit) =>
                    let record := (table.tsName, utms) :: recs
                    let st1 :=
                      { st with
                        lastMessageTime := upsert sid now st.lastMessageTime,
                        rxStats := updateRx sid now st.rxStats,
                        badValueEvents :=
                          if 0 < badHit then
                            upsert sid (((st.badValueEvents.lookup sid).getD 0) + badHit)
                              st.badValueEvents
                          else st.badValueEvents }
                    (st1, [.inserted table.name record])
          | _ =>
              let (sent, sst, _) :=
                send st.sender env.maxRepeatHours now "NON_DICT_PAYLOAD" env.nonDictE env.hasLogger
              ({ st with sender := sst }, [.notified "NON_DICT_PAYLOAD" sent])

/-- Loop body sequence of `MQTTLogger.check_missing_data` over a list of
active tables: a sensor id with no `last_message_time` entry is skipped;
otherwise a `MISSING_DATA_<sid>` notification is sent when the silence
exceeds the window. -/
def checkMissingDataGo (env : LoggerEnv) (sst : SenderState)
    (lastMsg : List (String × ℚ)) (windowS : Int) (now : ℚ) :
    List TableCfg → SenderState × List Effect
  | [] => (sst, [])
  | t :: rest =>
      match lastMsg.lookup t.sensorId with
      | Option.none => checkMissingDataGo env sst lastMsg windowS now rest
      | some last =>
          if (windowS : ℚ) < now - last then
            let r := send sst env.maxRepeatHours now ("MISSING_DATA_" ++ t.sensorId)
              env.missingDataE env.hasLogger
            let r2 := checkMissingDataGo env r.2.1 lastMsg windowS now rest
            (r2.1, .notified ("MISSING_DATA_" ++ t.sensorId) r.1 :: r2.2)
          else checkMissingDataGo env sst lastMsg windowS now rest

/-- Embedding of `MQTTLogger.check_missing_data` (`src/mqtt_logger.py`,
lines 428–465): a window of `window_minutes * 60` seconds; a non-positive
window disables the check. -/
def checkMissingData (env : LoggerEnv) (sst : SenderState)
    (lastMsg : List (String × ℚ)) (windowMinutes : Int) (now : ℚ) :
    SenderState × List Effect :=
  let windowS : Int := windowMinutes * 60
  if windowS ≤ 0 then (sst, [])
  else checkMissingDataGo env sst lastMsg windowS now env.activeTables

/-- Loop body sequence of `MQTTLogger.check_bad_values` over a list of
active tables: a sensor with a positive accumulated bad-hit count gets a
`BAD_VALUES_<sid>` notification attempt, and its counter is reset to zero
exactly when the notification fired. -/
def checkBadValuesGo (env : LoggerEnv) (sst : SenderState)
    (bve : List (String × ℕ)) (now : ℚ) :
    List TableCfg → SenderState × List (String × ℕ) × List Effect
  | [] => (sst, bve, [])
  | t :: rest =>
      if (bve.lookup t.sensorId).getD 0 = 0 then checkBadValuesGo env sst bve now rest
      else
        let r := send sst env.maxRepeatHours now ("BAD_VALUES_" ++ t.sensorId)
          env.badValuesE env.hasLogger
        let bve1 := if r.1 then upsert t.sensorId 0 bve else bve
        let r2 := checkBadValuesGo env r.2.1 bve1 now rest
        (r2.1, r2.2.1, .notified ("BAD_VALUES_" ++ t.sensorId) r.1 :: r2.2.2)

/-- Embedding of `MQTTLogger.check_bad_values` (`src/mqtt_logger.py`, lines
467–496). -/
def checkBadValues (env : LoggerEnv) (sst : SenderState)
    (bve : List (String × ℕ)) (now : ℚ) :
    SenderState × List (String × ℕ) × List Effect :=
  checkBadValuesGo env sst bve now env.activeTables

/-- Embedding of `MQTTLogger.check_db_size` (`src/mqtt_logger.py`, lines
498–536).  `lastCheckTs` is the `_last_db_size_check_ts` field (`0` meaning
never checked, which Python treats as falsy), `sizeB` the database file size
in bytes, and `checkHours`, `warnMb`, `critMb` the `DB_SIZE` trigger
configuration.  Returns the updated sender state, the updated
`_last_db_size_check_ts` and the effects. -/
def checkDbSize (env : LoggerEnv) (sst : SenderState) (lastCheckTs : ℚ)
    (now : ℚ) (sizeB : ℕ) (checkHours warnMb critMb : Int) :
    SenderState × ℚ × List Effect :=
  if checkHours ≤ 0 then (sst, lastCheckTs, [])
  else if lastCheckTs ≠ 0 ∧ now - lastCheckTs < (checkHours : ℚ) * 3600 then
    (sst, lastCheckTs, [])
  else
    let sizeMb : ℚ := (sizeB : ℚ) / (1024 * 1024)
    let warn := warnMb
    let crit := critMb
    if crit ≠ 0 ∧ (crit : ℚ) ≤ sizeMb then
      let (sent, sst1, _) := send sst env.maxRepeatHours now "DB_SIZE_CRITICAL" env.dbSizeE env.hasLogger
      (sst1, now, [.notified "DB_SIZE_CRITICAL" sent])
    else if warn ≠ 0 ∧ (warn : ℚ) ≤ sizeMb then
      let (sent, sst1, _) := send sst env.maxRepeatHours now "DB_SIZE_WARNING" env.dbSizeE env.hasLogger
      (sst1, now, [.notified "DB_SIZE_WARNING" sent])
    else (sst, now, [])

/-- Concrete channel configuration with every channel enabled. -/
def allOnE : EnabledChannels := ⟨true, true, true, true⟩

/-- Concrete float field with the classic `-9999` sentinel mapped to null. -/
def floatSensor : Sensor :=
  ⟨"temperature1", "float", Option.none, [("-9999", PyVal.none)]⟩

/-- Concrete string field whose invalid map carries a non-null replacement
with surrounding whitespace. -/
def stripSensor : Sensor :=
  ⟨"battery", "string", Option.none, [("bad", PyVal.str " x ")]⟩

/-- Concrete table routing sensor id `11` with one float field. -/
def demoTable : TableCfg :=
  ⟨"measurements_th", "measurements_th", "11", "utms", [("temperature1", floatSensor)]⟩

/-- Concrete logger environment used by the closed evaluation theorems. -/
def demoEnv : LoggerEnv :=
  { allTables := [demoTable], activeTables := [demoTable], maxRepeatHours := 48
    infoE := allOnE, unknownSensorE := allOnE, jsonDecodeE := allOnE
    nonDictE := allOnE, missingTsE := allOnE, missingDataE := allOnE
    badValuesE := allOnE, dbSizeE := allOnE, hasLogger := true }

/-- Fresh logger state: nothing sent, nothing received. -/
def emptyState : LoggerState := ⟨⟨[]⟩, [], [], [], []⟩

theorem lookup_filter_ne {α : Type} (k k' : String) (h : k' ≠ k) (l : List (String × α)) :
    (l.filter fun p => !(p.1 == k)).lookup k' = l.lookup k' := by
  induction l with
  | nil => rfl
  | cons p t ih =>
      obtain ⟨a, b⟩ := p
      rcases eq_or_ne a k with hak | hak
      · have h1 : (!(a == k)) = false := by simp [hak]
        have h2 : (k' == a) = false := beq_false_of_ne (by rw [hak]; exact h)
        rw [List.filter_cons, h1, if_neg (by simp), ih, List.lookup_cons, h2]
      · have h1 : (!(a == k)) = true := by simp [hak]
        rw [List.filter_cons, h1, if_pos rfl, List.lookup_cons, List.lookup_cons]
        cases hka : (k' == a)
        · simpa [hka] using ih
        · simp [hka]

theorem lookup_upsert_self {α : Type} (k : String) (v : α) (l : List (String × α)) :
    (upsert k v l).lookup k = some v := by
  simp [upsert, List.lookup_cons]

theorem lookup_upsert_ne {α : Type} {k k' : String} (v : α) (l : List (String × α))
    (h : k' ≠ k) : (upsert k v l).lookup k' = l.lookup k' := by
  simp [upsert, List.lookup_cons, beq_false_of_ne h, lookup_filter_ne k k' h l]

theorem string_append_left_cancel {p a b : String} (h : p ++ a = p ++ b) : a = b := by
  apply String.ext
  have h' := congrArg String.data h
  rw [String.data_append, String.data_append] at h'
  exact List.append_cancel_left h'

theorem send_fst (st : SenderState) (h now : ℚ) (key : String) (e : EnabledChannels)
    (lg : Bool) : (send st h now key e lg).1 = shouldSend st h now key := by
  by_cases hs : shouldSend st h now key = true <;> simp [send, hs]

theorem send_of_throttled (st : SenderState) (h now : ℚ) (key : String) (e : EnabledChannels)
    (lg : Bool) (hs : shouldSend st h now key = false) :
    send st h now key e lg = (false, st, []) := by
  simp [send, hs]

theorem send_lookup_of_sent (st : SenderState) (h now : ℚ) (key : String) (e : EnabledChannels)
    (lg : Bool) (hs : shouldSend st h now key = true) :
    (send st h now key e lg).2.1.lastSent.lookup key = some now := by
  simp [send, hs, lookup_upsert_self]

/-- C2 counterexample: with field type `string` and the invalid map sending
`"bad"` to the non-null replacement `" x "`, the raw value `"bad"` hits the
map, yet `sanitize_value` returns the stripped string `"x"`, not the mapped
replacement — the replacement is further coerced, contradicting the claim
that the returned value always equals the mapped replacement. -/
theorem sanitize_invalid_map_counterexample :
    stripSensor.invalidMap.lookup (asStrKey (PyVal.str "bad")) = some (PyVal.str " x ") ∧
    sanitizeValue stripSensor (PyVal.str "bad") ≠ PyVal.str " x " := by
  constructor
  · decide
  · decide

/-- C2 (amended): when the string-key form of the raw value hits the invalid
map, the raw value is discarded and the result is the type coercion of the
mapped replacement; in particular a null replacement yields null, while a
non-null replacement is further coerced rather than returned as mapped. -/
theorem sanitize_invalid_map_precedence (s : Sensor) (raw r : PyVal)
    (h : s.invalidMap.lookup (asStrKey raw) = some r) :
    sanitizeValue s raw = sanitizeCoerce s r ∧
      (r = PyVal.none → sanitizeValue s raw = PyVal.none) := by
  have hmain : sanitizeValue s raw = sanitizeCoerce s r := by
    unfold sanitizeValue
    rw [h]
  refine ⟨hmain, fun hr => ?_⟩
  subst hr
  rw [hmain]
  rfl

/-- C2 witness: instantiates the amended theorem on the float field whose
invalid map sends the sentinel string `"-9999"` to null. -/
theorem sanitize_invalid_map_precedence_witness :
    sanitizeValue floatSensor (PyVal.str "-9999") = PyVal.none :=
  (sanitize_invalid_map_precedence floatSensor (PyVal.str "-9999") PyVal.none (by decide)).2 rfl

/-- C3: for a fixed trigger key, two `send` calls less than the minimum
repeat interval apart yield at most one dispatch, and — starting from a key
that was never sent — two calls more than the interval apart both dispatch.
The second call runs on the state produced by the first. -/
theorem send_min_repeat_interval (st : SenderState) (h t1 t2 : ℚ) (key : String)
    (e1 e2 : EnabledChannels) (lg : Bool) :
    (t2 - t1 < h * 3600 →
      ¬((send st h t1 key e1 lg).1 = true ∧
        (send (send st h t1 key e1 lg).2.1 h t2 key e2 lg).1 = true)) ∧
    (st.lastSent.lookup key = Option.none → h * 3600 < t2 - t1 →
      (send st h t1 key e1 lg).1 = true ∧
      (send (send st h t1 key e1 lg).2.1 h t2 key e2 lg).1 = true) := by
  constructor
  · rintro hlt ⟨h1, h2⟩
    have hs1 : shouldSend st h t1 key = true := by
      rw [← send_fst st h t1 key e1 lg]; exact h1
    have hst : (send st h t1 key e1 lg).2.1 = ⟨upsert key t1 st.lastSent⟩ := by
      simp [send, hs1]
    rw [send_fst, hst] at h2
    unfold shouldSend at h2
    rw [show (SenderState.mk (upsert key t1 st.lastSent)).lastSent
          = upsert key t1 st.lastSent from rfl, lookup_upsert_self] at h2
    have := of_decide_eq_true h2
    linarith
  · intro hfresh hgt
    have hs1 : shouldSend st h t1 key = true := by
      unfold shouldSend; rw [hfresh]
    have hst : (send st h t1 key e1 lg).2.1 = ⟨upsert key t1 st.lastSent⟩ := by
      simp [send, hs1]
    refine ⟨by rw [send_fst]; exact hs1, ?_⟩
    rw [send_fst, hst]
    unfold shouldSend
    rw [show (SenderState.mk (upsert key t1 st.lastSent)).lastSent
          = upsert key t1 st.lastSent from rfl, lookup_upsert_self]
    simpa using le_of_lt hgt

/-- C3 witness: a fresh key, a one-hour interval, calls at `t = 0` and
`t = 3601` seconds: both dispatch. -/
theorem send_min_repeat_interval_witness :
    (send ⟨[]⟩ 1 0 "K" allOnE true).1 = true ∧
    (send (send ⟨[]⟩ 1 0 "K" allOnE true).2.1 1 3601 "K" allOnE true).1 = true :=
  (send_min_repeat_interval ⟨[]⟩ 1 0 3601 "K" allOnE allOnE true).2 rfl
    (of_decide_eq_true (by with_unfolding_all rfl))

/-- C4 counterexample: two exceptions of the same type (`DatabaseError`)
raised for two different sensor ids (`"11"` and `"22"`) produce the same
trigger key `EXCEPTION_DatabaseError` — the key is not distinct per sensor,
contradicting the claim that the keys differ. -/
theorem exception_throttle_key_counterexample :
    (handleException demoEnv emptyState "11" "DatabaseError" 0).2 =
      [Effect.notified "EXCEPTION_DatabaseError" true] ∧
    (handleException demoEnv emptyState "22" "DatabaseError" 0).2 =
      [Effect.notified "EXCEPTION_DatabaseError" true] := by
  exact ⟨by decide, by decide⟩

/-- C4 (amended): the throttle key used by `_handle_exception` is distinct
per exception type only — it is `EXCEPTION_<type name>` and does not depend
on the sensor id, so two exceptions of the same type on different sensors
share one key. -/
theorem exception_throttle_key_per_type (env : LoggerEnv) (st : LoggerState)
    (sid excName : String) (now : ℚ) :
    (handleException env st sid excName now).2 =
      [Effect.notified ("EXCEPTION_" ++ excName)
        (shouldSend st.sender env.maxRepeatHours now ("EXCEPTION_" ++ excName))] := by
  by_cases hs : shouldSend st.sender env.maxRepeatHours now ("EXCEPTION_" ++ excName) = true
  · simp [handleException, send, hs]
  · rw [Bool.not_eq_true] at hs
    simp [handleException, send, hs]

/-- C7: a throttled `send` returns `false`, leaves the sender state exactly
as it was and invokes no channel; a non-throttled `send` returns `true` and
records the current time against the trigger key.  The result holds for
every channel configuration — each channel method of the source catches its
own exceptions, so individual delivery failures cannot change the result. -/
theorem send_throttled_no_side_effects (st : SenderState) (h now : ℚ) (key : String)
    (e : EnabledChannels) (lg : Bool) :
    (shouldSend st h now key = false → send st h now key e lg = (false, st, [])) ∧
    (shouldSend st h now key = true →
      (send st h now key e lg).1 = true ∧
      (send st h now key e lg).2.1.lastSent.lookup key = some now) := by
  constructor
  · intro hs; simp [send, hs]
  · intro hs
    exact ⟨by simp [send, hs], send_lookup_of_sent st h now key e lg hs⟩

/-- C7 witness: a key last sent at `t = 0` queried again at `t = 5` with a
48-hour interval is suppressed with no state change; a fresh key at `t = 7`
dispatches and records `7`. -/
theorem send_throttled_no_side_effects_witness :
    send ⟨[("K", 0)]⟩ 48 5 "K" allOnE true = (false, ⟨[("K", 0)]⟩, []) ∧
    (send ⟨[]⟩ 48 7 "K" allOnE true).1 = true ∧
    (send ⟨[]⟩ 48 7 "K" allOnE true).2.1.lastSent.lookup "K" = some 7 :=
  ⟨(send_throttled_no_side_effects ⟨[("K", 0)]⟩ 48 5 "K" allOnE true).1
      (by with_unfolding_all rfl),
   (send_throttled_no_side_effects ⟨[]⟩ 48 7 "K" allOnE true).2 rfl⟩

theorem insertFrom_succ (attempts : ℕ → AttemptResult) (i fuel : ℕ) :
    insertFrom attempts i (fuel + 1) =
      match attempts i with
      | .ok => (.success, i + 1)
      | .opError m =>
          if containsLocked m = true then insertFrom attempts (i + 1) fuel
          else (.failImmediate m, i + 1)
      | .dbError m => (.failImmediate m, i + 1) := rfl

theorem insertFrom_succ_ok (attempts : ℕ → AttemptResult) (i fuel : ℕ)
    (h : attempts i = .ok) :
    insertFrom attempts i (fuel + 1) = (.success, i + 1) := by
  rw [insertFrom_succ, h]

theorem insertFrom_succ_op_locked (attempts : ℕ → AttemptResult) (i fuel : ℕ) (m : String)
    (h : attempts i = .opError m) (hl : containsLocked m = true) :
    insertFrom attempts i (fuel + 1) = insertFrom attempts (i + 1) fuel := by
  rw [insertFrom_succ, h]; simp [hl]

theorem insertFrom_succ_op_other (attempts : ℕ → AttemptResult) (i fuel : ℕ) (m : String)
    (h : attempts i = .opError m) (hl : containsLocked m = false) :
    insertFrom attempts i (fuel + 1) = (.failImmediate m, i + 1) := by
  rw [insertFrom_succ, h]; simp [hl]

theorem insertFrom_succ_db (attempts : ℕ → AttemptResult) (i fuel : ℕ) (m : String)
    (h : attempts i = .dbError m) :
    insertFrom attempts i (fuel + 1) = (.failImmediate m, i + 1) := by
  rw [insertFrom_succ, h]

theorem insertFrom_count_le (attempts : ℕ → AttemptResult) (fuel : ℕ) :
    ∀ i : ℕ, (insertFrom attempts i fuel).2 ≤ i + fuel := by
  induction fuel with
  | zero => intro i; simp [insertFrom]
  | succ f ih =>
      intro i
      cases h : attempts i with
      | ok =>
          rw [insertFrom_succ_ok attempts i f h]
          show i + 1 ≤ i + (f + 1)
          omega
      | opError m =>
          cases hl : containsLocked m with
          | true =>
              rw [insertFrom_succ_op_locked attempts i f m h hl]
              have := ih (i + 1)
              omega
          | false =>
              rw [insertFrom_succ_op_other attempts i f m h hl]
              show i + 1 ≤ i + (f + 1)
              omega
      | dbError m =>
          rw [insertFrom_succ_db attempts i f m h]
          show i + 1 ≤ i + (f + 1)
          omega

theorem insertFrom_locked_before (attempts : ℕ → AttemptResult) (fuel : ℕ) :
    ∀ i k : ℕ, i ≤ k → k + 1 < (insertFrom attempts i fuel).2 →
      ∃ m, attempts k = .opError m ∧ containsLocked m = true := by
  induction fuel with
  | zero =>
      intro i k hik hk
      simp [insertFrom] at hk
      omega
  | succ f ih =>
      intro i k hik hk
      cases h : attempts i with
      | ok =>
          rw [insertFrom_succ_ok attempts i f h] at hk
          have hk2 : k + 1 < i + 1 := hk
          omega
      | opError m =>
          cases hl : containsLocked m with
          | true =>
              rw [insertFrom_succ_op_locked attempts i f m h hl] at hk
              rcases Nat.lt_or_ge k (i + 1) with hki | hki
              · have hke : k = i := by omega
                exact ⟨m, hke ▸ h, hl⟩
              · exact ih (i + 1) k hki hk
          | false =>
              rw [insertFrom_succ_op_other attempts i f m h hl] at hk
              have hk2 : k + 1 < i + 1 := hk
              omega
      | dbError m =>
          rw [insertFrom_succ_db attempts i f m h] at hk
          have hk2 : k + 1 < i + 1 := hk
          omega

theorem insertFrom_exhausted_count (attempts : ℕ → AttemptResult) (fuel : ℕ) :
    ∀ i : ℕ, (insertFrom attempts i fuel).1 = .failExhausted →
      (insertFrom attempts i fuel).2 = i + fuel := by
  induction fuel with
  | zero => intro i _; simp [insertFrom]
  | succ f ih =>
      intro i hx
      cases h : attempts i with
      | ok =>
          rw [insertFrom_succ_ok attempts i f h] at hx
          exact absurd (show InsertOutcome.success = .failExhausted from hx) (by simp)
      | opError m =>
          cases hl : containsLocked m with
          | true =>
              rw [insertFrom_succ_op_locked attempts i f m h hl] at hx ⊢
              have := ih (i + 1) hx
              omega
          | false =>
              rw [insertFrom_succ_op_other attempts i f m h hl] at hx
              exact absurd (show InsertOutcome.failImmediate m = .failExhausted from hx) (by simp)
      | dbError m =>
          rw [insertFrom_succ_db attempts i f m h] at hx
          exact absurd (show InsertOutcome.failImmediate m = .failExhausted from hx) (by simp)


/-- C5: `DatabaseManager.insert` performs at most five attempts; every
attempt that is retried (i.e. is followed by another attempt) failed with an
operational error whose message contains `locked`; the exhaustion
`DatabaseError` is raised only after all five attempts; a first attempt
failing with a non-locked operational error or with any other storage error
raises `DatabaseError` immediately, after exactly one attempt and no
retry. -/
theorem insert_retry_policy (attempts : ℕ → AttemptResult) :
    (insert attempts).2 ≤ 5 ∧
    (∀ k, k + 1 < (insert attempts).2 →
      ∃ m, attempts k = .opError m ∧ containsLocked m = true) ∧
    ((insert attempts).1 = .failExhausted → (insert attempts).2 = 5) ∧
    (∀ m, attempts 0 = .opError m → containsLocked m = false →
      insert attempts = (.failImmediate m, 1)) ∧
    (∀ m, attempts 0 = .dbError m → insert attempts = (.failImmediate m, 1)) := by
  refine ⟨insertFrom_count_le attempts 5 0, ?_, ?_, ?_, ?_⟩
  · intro k hk
    exact insertFrom_locked_before attempts 5 0 k (Nat.zero_le k) hk
  · intro hx
    exact insertFrom_exhausted_count attempts 5 0 hx
  · intro m hm hl
    unfold insert insertFrom
    rw [hm]
    simp [hl]
  · intro m hm
    unfold insert insertFrom
    rw [hm]

/-- C5 witness: a structural failure (`no such table`, not an operational
lock) on the first attempt raises immediately after one attempt. -/
theorem insert_retry_policy_witness :
    insert (fun _ => AttemptResult.dbError "no such table") =
      (InsertOutcome.failImmediate "no such table", 1) :=
  (insert_retry_policy (fun _ => AttemptResult.dbError "no such table")).2.2.2.2
    "no such table" rfl

end SensorLogger

namespace SensorLogger

/-- C6: for an inbound message that routes to a table but whose decoded
object payload lacks the table's timestamp field (or carries a falsy value
for it, such as the empty string), `on_message` performs no database insert,
attempts exactly one `MISSING_TIMESTAMP` notification, and leaves
`last_message_time`, `rx_stats` and `bad_value_events` unchanged. -/
theorem missing_timestamp_no_insert (env : LoggerEnv) (st : LoggerState) (topic : String)
    (entries : List (String × PyVal)) (now : ℚ) (sid : String) (table : TableCfg)
    (h1 : sensorIdFromTopic topic = some sid) (h2 : sid ≠ "")
    (h3 : getTableForSensor env sid = some table)
    (h4 : pyFalsy ((entries.lookup table.tsName).getD PyVal.none) = true) :
    (onMessage env st topic (some (PyVal.dict entries)) now).1.lastMessageTime
        = st.lastMessageTime ∧
    (onMessage env st topic (some (PyVal.dict entries)) now).1.rxStats = st.rxStats ∧
    (onMessage env st topic (some (PyVal.dict entries)) now).1.badValueEvents
        = st.badValueEvents ∧
    (onMessage env st topic (some (PyVal.dict entries)) now).2 =
      [Effect.notified "MISSING_TIMESTAMP"
        (shouldSend st.sender env.maxRepeatHours now "MISSING_TIMESTAMP")] := by
  have hcore : onMessage env st topic (some (PyVal.dict entries)) now =
      ({ st with sender :=
          (send st.sender env.maxRepeatHours now "MISSING_TIMESTAMP"
            env.missingTsE env.hasLogger).2.1 },
        [Effect.notified "MISSING_TIMESTAMP"
          (send st.sender env.maxRepeatHours now "MISSING_TIMESTAMP"
            env.missingTsE env.hasLogger).1]) := by
    unfold onMessage
    rw [h1]
    dsimp only
    rw [if_neg h2, h3]
    dsimp only
    rw [if_pos h4]
  rw [hcore, send_fst]
  exact ⟨rfl, rfl, rfl, rfl⟩

/-- C6 witness: a payload with no `utms` entry routed to the demo table. -/
theorem missing_timestamp_no_insert_witness :
    (onMessage demoEnv emptyState "mobilealerts/11/json"
        (some (PyVal.dict [("temperature1", PyVal.str "21.37")])) 5).2 =
      [Effect.notified "MISSING_TIMESTAMP"
        (shouldSend emptyState.sender demoEnv.maxRepeatHours 5 "MISSING_TIMESTAMP")] :=
  (missing_timestamp_no_insert demoEnv emptyState "mobilealerts/11/json"
      [("temperature1", PyVal.str "21.37")] 5 "11" demoTable
      (by decide) (by decide) (by decide) (by decide)).2.2.2

/-- C1 (code bug at the sanitizer boundary): `sanitize_value` returns one
sanitized value, not the `(storedValue, isGood)` pair that both the spec
contract and its caller `on_message` expect; unpacking its result for a
float field raises a `TypeError`, so a well-formed message with a valid
float reading is routed to the internal-exception handler and never
inserted. -/
theorem sanitize_unpack_type_error :
    unpack2 (sanitizeValue floatSensor (PyVal.str "21.37")) = Option.none ∧
    (onMessage demoEnv emptyState "mobilealerts/11/json"
        (some (PyVal.dict [("utms", PyVal.str "2025-01-01T00:00:00.000Z"),
                           ("temperature1", PyVal.str "21.37")])) 1000).2 =
      [Effect.notified "EXCEPTION_InternalLoggerError" true] ∧
    (onMessage demoEnv emptyState "mobilealerts/11/json"
        (some (PyVal.dict [("utms", PyVal.str "2025-01-01T00:00:00.000Z"),
                           ("temperature1", PyVal.str "21.37")])) 1000).1.lastMessageTime
      = [] := by
  refine ⟨by decide, by decide, by decide⟩

end SensorLogger

namespace SensorLogger

theorem checkBadValuesGo_cons_zero (env : LoggerEnv) (sst : SenderState)
    (bve : List (String × ℕ)) (now : ℚ) (t : TableCfg) (rest : List TableCfg)
    (hc : (bve.lookup t.sensorId).getD 0 = 0) :
    checkBadValuesGo env sst bve now (t :: rest) = checkBadValuesGo env sst bve now rest := by
  simp only [checkBadValuesGo]
  rw [if_pos hc]

theorem checkBadValuesGo_cons_pos (env : LoggerEnv) (sst : SenderState)
    (bve : List (String × ℕ)) (now : ℚ) (t : TableCfg) (rest : List TableCfg)
    (hc : ¬((bve.lookup t.sensorId).getD 0 = 0)) :
    checkBadValuesGo env sst bve now (t :: rest) =
      ((checkBadValuesGo env
          (send sst env.maxRepeatHours now ("BAD_VALUES_" ++ t.sensorId)
            env.badValuesE env.hasLogger).2.1
          (if (send sst env.maxRepeatHours now ("BAD_VALUES_" ++ t.sensorId)
              env.badValuesE env.hasLogger).1 then upsert t.sensorId 0 bve else bve)
          now rest).1,
       (checkBadValuesGo env
          (send sst env.maxRepeatHours now ("BAD_VALUES_" ++ t.sensorId)
            env.badValuesE env.hasLogger).2.1
          (if (send sst env.maxRepeatHours now ("BAD_VALUES_" ++ t.sensorId)
              env.badValuesE env.hasLogger).1 then upsert t.sensorId 0 bve else bve)
          now rest).2.1,
       Effect.notified ("BAD_VALUES_" ++ t.sensorId)
          (send sst env.maxRepeatHours now ("BAD_VALUES_" ++ t.sensorId)
            env.badValuesE env.hasLogger).1 ::
        (checkBadValuesGo env
          (send sst env.maxRepeatHours now ("BAD_VALUES_" ++ t.sensorId)
            env.badValuesE env.hasLogger).2.1
          (if (send sst env.maxRepeatHours now ("BAD_VALUES_" ++ t.sensorId)
              env.badValuesE env.hasLogger).1 then upsert t.sensorId 0 bve else bve)
          now rest).2.2) := by
  simp only [checkBadValuesGo]
  rw [if_neg hc]

theorem checkBadValuesGo_untouched (env : LoggerEnv) (now : ℚ) (sid : String) :
    ∀ (l : List TableCfg) (sst : SenderState) (bve : List (String × ℕ)),
      sid ∉ l.map (fun t => t.sensorId) →
      (checkBadValuesGo env sst bve now l).2.1.lookup sid = bve.lookup sid := by
  intro l
  induction l with
  | nil => intro sst bve _; rfl
  | cons t rest ih =>
      intro sst bve hmem
      rw [List.map_cons] at hmem
      have hts : sid ≠ t.sensorId := fun he => hmem (by rw [he]; exact List.mem_cons_self _ _)
      have hrest : sid ∉ rest.map (fun t => t.sensorId) :=
        fun hm => hmem (List.mem_cons_of_mem _ hm)
      by_cases hc : (bve.lookup t.sensorId).getD 0 = 0
      · rw [checkBadValuesGo_cons_zero env sst bve now t rest hc]
        exact ih sst bve hrest
      · rw [checkBadValuesGo_cons_pos env sst bve now t rest hc]
        dsimp only
        rw [ih _ _ hrest]
        by_cases hsent : (send sst env.maxRepeatHours now ("BAD_VALUES_" ++ t.sensorId)
            env.badValuesE env.hasLogger).1 = true
        · rw [if_pos hsent, lookup_upsert_ne 0 bve hts]
        · rw [if_neg hsent]

theorem checkBadValuesGo_spec (env : LoggerEnv) (now : ℚ) (sid : String) :
    ∀ (l : List TableCfg) (sst : SenderState) (bve : List (String × ℕ)),
      (l.map (fun t => t.sensorId)).Nodup →
      sid ∈ l.map (fun t => t.sensorId) →
      0 < (bve.lookup sid).getD 0 →
      ∃ sent : Bool,
        Effect.notified ("BAD_VALUES_" ++ sid) sent ∈
          (checkBadValuesGo env sst bve now l).2.2 ∧
        (checkBadValuesGo env sst bve now l).2.1.lookup sid =
          (if sent then some 0 else bve.lookup sid) := by
  intro l
  induction l with
  | nil => intro sst bve _ hm _; simp at hm
  | cons t rest ih =>
      intro sst bve hnd hm hc
      rw [List.map_cons] at hm hnd
      have hnd1 : t.sensorId ∉ rest.map (fun t => t.sensorId) := (List.nodup_cons.1 hnd).1
      have hnd2 : (rest.map (fun t => t.sensorId)).Nodup := (List.nodup_cons.1 hnd).2
      rcases List.mem_cons.1 hm with he | hm2
      · -- this iteration is the one for `sid`
        rw [he] at hc ⊢
        have hc0 : ¬((bve.lookup t.sensorId).getD 0 = 0) := by omega
        rw [checkBadValuesGo_cons_pos env sst bve now t rest hc0]
        refine ⟨(send sst env.maxRepeatHours now ("BAD_VALUES_" ++ t.sensorId)
            env.badValuesE env.hasLogger).1, ?_, ?_⟩
        · exact List.mem_cons_self _ _
        · dsimp only
          rw [checkBadValuesGo_untouched env now t.sensorId rest _ _ hnd1]
          by_cases hsent : (send sst env.maxRepeatHours now ("BAD_VALUES_" ++ t.sensorId)
              env.badValuesE env.hasLogger).1 = true
          · rw [if_pos hsent, lookup_upsert_self, if_pos hsent]
          · rw [if_neg hsent, if_neg hsent]
      · -- `sid` is handled by a later iteration
        have hts : sid ≠ t.sensorId := fun he => hnd1 (he ▸ hm2)
        by_cases hc0 : (bve.lookup t.sensorId).getD 0 = 0
        · rw [checkBadValuesGo_cons_zero env sst bve now t rest hc0]
          exact ih sst bve hnd2 hm2 hc
        · rw [checkBadValuesGo_cons_pos env sst bve now t rest hc0]
          have hb1 : ((if (send sst env.maxRepeatHours now ("BAD_VALUES_" ++ t.sensorId)
              env.badValuesE env.hasLogger).1 then upsert t.sensorId 0 bve
              else bve)).lookup sid = bve.lookup sid := by
            by_cases hsent : (send sst env.maxRepeatHours now ("BAD_VALUES_" ++ t.sensorId)
                env.badValuesE env.hasLogger).1 = true
            · rw [if_pos hsent, lookup_upsert_ne 0 bve hts]
            · rw [if_neg hsent]
          obtain ⟨sent, hmem2, hfin⟩ := ih
            (send sst env.maxRepeatHours now ("BAD_VALUES_" ++ t.sensorId)
              env.badValuesE env.hasLogger).2.1
            (if (send sst env.maxRepeatHours now ("BAD_VALUES_" ++ t.sensorId)
                env.badValuesE env.hasLogger).1 then upsert t.sensorId 0 bve else bve)
            hnd2 hm2 (by rw [hb1]; exact hc)
          refine ⟨sent, ?_, ?_⟩
          · dsimp only
            exact List.mem_cons_of_mem _ hmem2
          · dsimp only
            rw [hfin, hb1]

/-- C8: in the bad-values sweep over active tables with pairwise distinct
sensor ids, every sensor with a positive accumulated bad-hit count gets a
`BAD_VALUES_<sid>` notification attempt, and its counter afterwards is zero
exactly when that notification fired (`send` returned `true`); a throttled
notification leaves the counter unchanged. -/
theorem bad_values_reset_iff_sent (env : LoggerEnv) (sst : SenderState)
    (bve : List (String × ℕ)) (now : ℚ) (sid : String)
    (hnd : (env.activeTables.map (fun t => t.sensorId)).Nodup)
    (hmem : sid ∈ env.activeTables.map (fun t => t.sensorId))
    (hc : 0 < (bve.lookup sid).getD 0) :
    ∃ sent : Bool,
      Effect.notified ("BAD_VALUES_" ++ sid) sent ∈ (checkBadValues env sst bve now).2.2 ∧
      (checkBadValues env sst bve now).2.1.lookup sid =
        (if sent then some 0 else bve.lookup sid) := by
  unfold checkBadValues
  exact checkBadValuesGo_spec env now sid env.activeTables sst bve hnd hmem hc

/-- C8 witness: one active table for sensor `11` with three accumulated bad
hits on a fresh sender: the notification fires and the counter resets. -/
theorem bad_values_reset_iff_sent_witness :
    ∃ sent : Bool,
      Effect.notified ("BAD_VALUES_" ++ "11") sent ∈
        (checkBadValues demoEnv ⟨[]⟩ [("11", 3)] 5).2.2 ∧
      (checkBadValues demoEnv ⟨[]⟩ [("11", 3)] 5).2.1.lookup "11" =
        (if sent then some 0 else List.lookup "11" [("11", 3)]) :=
  bad_values_reset_iff_sent demoEnv ⟨[]⟩ [("11", 3)] 5 "11"
    (by decide) (by decide) (by decide)

end SensorLogger

namespace SensorLogger

theorem checkMissingDataGo_cons (env : LoggerEnv) (sst : SenderState)
    (lastMsg : List (String × ℚ)) (windowS : Int) (now : ℚ) (t : TableCfg)
    (rest : List TableCfg) :
    checkMissingDataGo env sst lastMsg windowS now (t :: rest) =
      match lastMsg.lookup t.sensorId with
      | Option.none => checkMissingDataGo env sst lastMsg windowS now rest
      | some last =>
          if (windowS : ℚ) < now - last then
            ((checkMissingDataGo env
                (send sst env.maxRepeatHours now ("MISSING_DATA_" ++ t.sensorId)
                  env.missingDataE env.hasLogger).2.1 lastMsg windowS now rest).1,
              Effect.notified ("MISSING_DATA_" ++ t.sensorId)
                (send sst env.maxRepeatHours now ("MISSING_DATA_" ++ t.sensorId)
                  env.missingDataE env.hasLogger).1 ::
                (checkMissingDataGo env
                  (send sst env.maxRepeatHours now ("MISSING_DATA_" ++ t.sensorId)
                    env.missingDataE env.hasLogger).2.1 lastMsg windowS now rest).2)
          else checkMissingDataGo env sst lastMsg windowS now rest := rfl

theorem checkMissingDataGo_cons_none (env : LoggerEnv) (sst : SenderState)
    (lastMsg : List (String × ℚ)) (windowS : Int) (now : ℚ) (t : TableCfg)
    (rest : List TableCfg) (h : lastMsg.lookup t.sensorId = Option.none) :
    checkMissingDataGo env sst lastMsg windowS now (t :: rest) =
      checkMissingDataGo env sst lastMsg windowS now rest := by
  rw [checkMissingDataGo_cons, h]

theorem checkMissingDataGo_cons_recent (env : LoggerEnv) (sst : SenderState)
    (lastMsg : List (String × ℚ)) (windowS : Int) (now : ℚ) (t : TableCfg)
    (rest : List TableCfg) (last : ℚ) (h : lastMsg.lookup t.sensorId = some last)
    (hle : ¬((windowS : ℚ) < now - last)) :
    checkMissingDataGo env sst lastMsg windowS now (t :: rest) =
      checkMissingDataGo env sst lastMsg windowS now rest := by
  rw [checkMissingDataGo_cons, h]
  simp only [if_neg hle]

theorem checkMissingDataGo_cons_late (env : LoggerEnv) (sst : SenderState)
    (lastMsg : List (String × ℚ)) (windowS : Int) (now : ℚ) (t : TableCfg)
    (rest : List TableCfg) (last : ℚ) (h : lastMsg.lookup t.sensorId = some last)
    (hlt : (windowS : ℚ) < now - last) :
    checkMissingDataGo env sst lastMsg windowS now (t :: rest) =
      ((checkMissingDataGo env
          (send sst env.maxRepeatHours now ("MISSING_DATA_" ++ t.sensorId)
            env.missingDataE env.hasLogger).2.1 lastMsg windowS now rest).1,
        Effect.notified ("MISSING_DATA_" ++ t.sensorId)
          (send sst env.maxRepeatHours now ("MISSING_DATA_" ++ t.sensorId)
            env.missingDataE env.hasLogger).1 ::
          (checkMissingDataGo env
            (send sst env.maxRepeatHours now ("MISSING_DATA_" ++ t.sensorId)
              env.missingDataE env.hasLogger).2.1 lastMsg windowS now rest).2) := by
  rw [checkMissingDataGo_cons, h]
  simp only [if_pos hlt]

theorem checkMissingDataGo_skip (env : LoggerEnv) (lastMsg : List (String × ℚ))
    (windowS : Int) (now : ℚ) (sid : String)
    (h : lastMsg.lookup sid = Option.none) :
    ∀ (l : List TableCfg) (sst : SenderState) (s : Bool),
      Effect.notified ("MISSING_DATA_" ++ sid) s ∉
        (checkMissingDataGo env sst lastMsg windowS now l).2 := by
  intro l
  induction l with
  | nil =>
      intro sst s hm
      simp [checkMissingDataGo] at hm
  | cons t rest ih =>
      intro sst s hm
      cases hl : lastMsg.lookup t.sensorId with
      | none =>
          rw [checkMissingDataGo_cons_none env sst lastMsg windowS now t rest hl] at hm
          exact ih sst s hm
      | some last =>
          have hts : t.sensorId ≠ sid := by
            intro he
            rw [he, h] at hl
            exact Option.noConfusion hl
          by_cases hlt : (windowS : ℚ) < now - last
          · rw [checkMissingDataGo_cons_late env sst lastMsg windowS now t rest last hl hlt]
              at hm
            dsimp only at hm
            rcases List.mem_cons.1 hm with he | hm2
            · have hkeys : "MISSING_DATA_" ++ sid = "MISSING_DATA_" ++ t.sensorId := by
                injection he with h1 h2
              exact hts (string_append_left_cancel hkeys).symm
            · exact ih _ s hm2
          · rw [checkMissingDataGo_cons_recent env sst lastMsg windowS now t rest last hl hlt]
              at hm
            exact ih sst s hm

/-- C10: the missing-data sweep never notifies for a sensor that has no
`last_message_time` entry — a sensor that has never delivered an accepted
message since engine start is skipped, no matter how much time has passed. -/
theorem missing_data_skips_never_seen (env : LoggerEnv) (sst : SenderState)
    (lastMsg : List (String × ℚ)) (windowMinutes : Int) (now : ℚ) (sid : String)
    (h : lastMsg.lookup sid = Option.none) :
    ∀ s : Bool, Effect.notified ("MISSING_DATA_" ++ sid) s ∉
      (checkMissingData env sst lastMsg windowMinutes now).2 := by
  intro s
  unfold checkMissingData
  by_cases hw : windowMinutes * 60 ≤ 0
  · rw [if_pos hw]
    simp
  · rw [if_neg hw]
    exact checkMissingDataGo_skip env lastMsg (windowMinutes * 60) now sid h
      env.activeTables sst s

/-- C10 witness: with an empty `last_message_time` map, a 30-minute window
and an arbitrarily late clock, no missing-data notification is emitted for
sensor `11`. -/
theorem missing_data_skips_never_seen_witness :
    Effect.notified ("MISSING_DATA_" ++ "11") true ∉
      (checkMissingData demoEnv ⟨[]⟩ [] 30 100000).2 :=
  missing_data_skips_never_seen demoEnv ⟨[]⟩ [] 30 100000 "11" rfl true

/-- C9: once the periodic gate of the storage-size check passes, a nonzero
critical threshold that the current size meets or exceeds yields exactly the
critical notification attempt (and no warning), even if the warning
threshold is also exceeded; a warning notification can occur only when the
critical branch did not apply and the size is at or above a nonzero warning
threshold. -/
theorem db_size_critical_precedence (env : LoggerEnv) (sst : SenderState)
    (lastCheckTs now : ℚ) (sizeB : ℕ) (checkHours warnMb critMb : Int)
    (hgate1 : 0 < checkHours)
    (hgate2 : ¬(lastCheckTs ≠ 0 ∧ now - lastCheckTs < (checkHours : ℚ) * 3600)) :
    (critMb ≠ 0 → (critMb : ℚ) ≤ (sizeB : ℚ) / (1024 * 1024) →
      (checkDbSize env sst lastCheckTs now sizeB checkHours warnMb critMb).2.2 =
        [Effect.notified "DB_SIZE_CRITICAL"
          (shouldSend sst env.maxRepeatHours now "DB_SIZE_CRITICAL")]) ∧
    (∀ s : Bool, Effect.notified "DB_SIZE_WARNING" s ∈
        (checkDbSize env sst lastCheckTs now sizeB checkHours warnMb critMb).2.2 →
      ¬(critMb ≠ 0 ∧ (critMb : ℚ) ≤ (sizeB : ℚ) / (1024 * 1024)) ∧
        warnMb ≠ 0 ∧ (warnMb : ℚ) ≤ (sizeB : ℚ) / (1024 * 1024)) := by
  have hg1 : ¬(checkHours ≤ 0) := by omega
  constructor
  · intro hcrit hle
    simp only [checkDbSize]
    rw [if_neg hg1, if_neg hgate2, if_pos ⟨hcrit, hle⟩]
    dsimp only
    rw [send_fst]
  · intro s hs
    simp only [checkDbSize] at hs
    rw [if_neg hg1, if_neg hgate2] at hs
    by_cases hcrit : critMb ≠ 0 ∧ (critMb : ℚ) ≤ (sizeB : ℚ) / (1024 * 1024)
    · rw [if_pos hcrit] at hs
      dsimp only at hs
      rcases List.mem_cons.1 hs with he | hm2
      · have hk : ("DB_SIZE_WARNING" : String) = "DB_SIZE_CRITICAL" := by
          injection he
        exact absurd hk (by decide)
      · simp at hm2
    · rw [if_neg hcrit] at hs
      by_cases hwarn : warnMb ≠ 0 ∧ (warnMb : ℚ) ≤ (sizeB : ℚ) / (1024 * 1024)
      · exact ⟨hcrit, hwarn⟩
      · rw [if_neg hwarn] at hs
        simp at hs

/-- C9 witness: a 900 MB database against warn 500 MB and crit 800 MB, with
the periodic gate open: exactly the critical notification is attempted. -/
theorem db_size_critical_precedence_witness :
    (checkDbSize demoEnv ⟨[]⟩ 0 0 943718400 24 500 800).2.2 =
      [Effect.notified "DB_SIZE_CRITICAL"
        (shouldSend ⟨[]⟩ demoEnv.maxRepeatHours 0 "DB_SIZE_CRITICAL")] :=
  (db_size_critical_precedence demoEnv ⟨[]⟩ 0 0 943718400 24 500 800
      (by decide) (by simp)).1 (by decide)
    (of_decide_eq_true (by with_unfolding_all rfl))

end SensorLogger
